import Mathlib

/-!
Verification development for the emtmlibpy binding layer
(src/emtmlibpy/emtmlibpy.py): a ctypes foreign-function binding around the
proprietary native library libEMTMLib.so.

The native library is opaque, so every native entry point is modelled as an
explicit function parameter of the wrapper that calls it; each wrapper
definition below is a direct transcription of the corresponding Python
function.  A ctypes `c_int` out-parameter is modelled by `CIntArg`: passed
with `ctypes.byref` the value the native writes through the pointer flows
back to the caller, passed by value it does not.  The exact argument list a
wrapper hands across the call boundary is additionally modelled by a
`NativeCall` descriptor transcribed from the call site.
-/

namespace Emtm

def EMTM_MAX_CHARS : Int := 1024

/-- Result codes of the native library, class EMTMResult(IntEnum):
ok = 0, failed, invalid_licence, invalid_index, buffer_too_small, invalid_id. -/
inductive EMTMResult where
  | ok
  | failed
  | invalid_licence
  | invalid_index
  | buffer_too_small
  | invalid_id
deriving DecidableEq, Repr

def EMTMResult.toInt : EMTMResult → Int
  | .ok => 0
  | .failed => 1
  | .invalid_licence => 2
  | .invalid_index => 3
  | .buffer_too_small => 4
  | .invalid_id => 5

/-- Conversion of a raw integer code into the enumeration, as done by the
Python expression EMTMResult(r); an integer outside 0..5 raises ValueError,
modelled by none. -/
def EMTMResult.ofInt? (n : Int) : Option EMTMResult :=
  if n = 0 then some .ok
  else if n = 1 then some .failed
  else if n = 2 then some .invalid_licence
  else if n = 3 then some .invalid_index
  else if n = 4 then some .buffer_too_small
  else if n = 5 then some .invalid_id
  else none

/-- A Python value returned by a wrapper, keeping track of whether the
wrapper returned the raw native integer, an EMTMResult enumeration member,
or a genuine bool.  (In Python, 1 == True numerically, but 1 is an int, not
the bool True; likewise a raw int equal to an IntEnum member is not a member
of the enumeration.) -/
inductive PyRet where
  | rawInt (n : Int)
  | enumVal (e : EMTMResult)
  | pyBool (b : Bool)
deriving DecidableEq, Repr

def PyRet.isEnumVal : PyRet → Bool
  | .enumVal _ => true
  | _ => false

def PyRet.isPyBool : PyRet → Bool
  | .pyBool _ => true
  | _ => false

/-!
Record structures.  c_char arrays are modelled by String (the b'' default is
the empty string), c_int by Int, c_double by Float, c_bool by Bool.  Each
`init` is the record produced by the Python constructor called with no
arguments, transcribing the default values of the `__init__` parameters.
-/

/-- Structure of TM quadrat data (class TMQuadratData). -/
structure TMQuadratData where
  str_filename : String
  n_frame : Int
  d_time_mins : Float
  d_side_length : Float
  str_units : String
  d_image_row_1 : Float
  d_image_row_2 : Float
  d_image_row_3 : Float
  d_image_row_4 : Float
  d_image_col_1 : Float
  d_image_col_2 : Float
  d_image_col_3 : Float
  d_image_col_4 : Float

/-- TMQuadratData() with the source defaults. -/
def TMQuadratData.init : TMQuadratData where
  str_filename := ""
  n_frame := 0
  d_time_mins := 0
  d_side_length := 0
  str_units := ""
  d_image_row_1 := 0
  d_image_row_2 := 0
  d_image_row_3 := 0
  d_image_row_4 := 0
  d_image_col_1 := 0
  d_image_col_2 := 0
  d_image_col_3 := 0
  d_image_col_4 := 0

/-- Generic structure for string data (class StringData). -/
structure StringData where
  str1 : String
  str2 : String
  str3 : String
  str4 : String
  str5 : String
  str6 : String

/-- StringData() with the source defaults. -/
def StringData.init : StringData where
  str1 := ""
  str2 := ""
  str3 := ""
  str4 := ""
  str5 := ""
  str6 := ""

/-- Point structure (class EmPointData). -/
structure EmPointData where
  str_op_code : String
  str_filename : String
  n_frame : Int
  d_time_mins : Float
  str_period : String
  d_period_time_mins : Float
  d_imx : Float
  d_imy : Float
  d_rectx : Float
  d_recty : Float
  str_family : String
  str_genus : String
  str_species : String
  str_code : String
  str_number : String
  str_stage : String
  str_activity : String
  str_comment : String
  str_att_9 : String
  str_att_10 : String

/-- EmPointData() with the source defaults. -/
def EmPointData.init : EmPointData where
  str_op_code := ""
  str_filename := ""
  n_frame := 0
  d_time_mins := 0
  str_period := ""
  d_period_time_mins := 0
  d_imx := 0
  d_imy := 0
  d_rectx := 0
  d_recty := 0
  str_family := ""
  str_genus := ""
  str_species := ""
  str_code := ""
  str_number := ""
  str_stage := ""
  str_activity := ""
  str_comment := ""
  str_att_9 := ""
  str_att_10 := ""

/-- 3DPoint structure (class Em3DPpointData; the doubled P is in the source). -/
structure Em3DPpointData where
  str_op_code : String
  str_filename_left : String
  str_filename_right : String
  n_frame_left : Int
  n_frame_right : Int
  d_time_mins : Float
  str_period : String
  d_period_time_mins : Float
  d_imx_left : Float
  d_imy_left : Float
  d_imx_right : Float
  d_imy_right : Float
  dx : Float
  dy : Float
  dz : Float
  dsx : Float
  dsy : Float
  dsz : Float
  d_rms : Float
  d_range : Float
  d_direction : Float
  str_family : String
  str_genus : String
  str_species : String
  str_code : String
  str_number : String
  str_stage : String
  str_activity : String
  str_comment : String
  str_att_9 : String
  str_att_10 : String

/-- Em3DPpointData() with the source defaults. -/
def Em3DPpointData.init : Em3DPpointData where
  str_op_code := ""
  str_filename_left := ""
  str_filename_right := ""
  n_frame_left := 0
  n_frame_right := 0
  d_time_mins := 0
  str_period := ""
  d_period_time_mins := 0
  d_imx_left := 0
  d_imy_left := 0
  d_imx_right := 0
  d_imy_right := 0
  dx := 0
  dy := 0
  dz := 0
  dsx := 0
  dsy := 0
  dsz := 0
  d_rms := 0
  d_range := 0
  d_direction := 0
  str_family := ""
  str_genus := ""
  str_species := ""
  str_code := ""
  str_number := ""
  str_stage := ""
  str_activity := ""
  str_comment := ""
  str_att_9 := ""
  str_att_10 := ""

/-- Length structure (class EmLengthData). -/
structure EmLengthData where
  str_op_code : String
  str_filename_left : String
  str_filename_right : String
  n_frame_left : Int
  n_frame_right : Int
  d_time_mins : Float
  str_period : String
  d_period_time_mins : Float
  b_compound_length : Bool
  d_imx1_left : Float
  d_imy1_left : Float
  d_imx1_right : Float
  d_imy1_right : Float
  d_imx2_left : Float
  d_imy2_left : Float
  d_imx2_right : Float
  d_imy2_right : Float
  d_length : Float
  d_precision : Float
  d_rms : Float
  d_range : Float
  d_direction : Float
  dx_mid : Float
  dy_mid : Float
  dz_mid : Float
  str_family : String
  str_genus : String
  str_species : String
  str_code : String
  str_number : String
  str_stage : String
  str_activity : String
  str_comment : String
  str_att_9 : String
  str_att_10 : String

/-- EmLengthData() with the source defaults (the default 0.0 assigned to the
c_bool field b_compound_length stores False). -/
def EmLengthData.init : EmLengthData where
  str_op_code := ""
  str_filename_left := ""
  str_filename_right := ""
  n_frame_left := 0
  n_frame_right := 0
  d_time_mins := 0
  str_period := ""
  d_period_time_mins := 0
  b_compound_length := false
  d_imx1_left := 0
  d_imy1_left := 0
  d_imx1_right := 0
  d_imy1_right := 0
  d_imx2_left := 0
  d_imy2_left := 0
  d_imx2_right := 0
  d_imy2_right := 0
  d_length := 0
  d_precision := 0
  d_rms := 0
  d_range := 0
  d_direction := 0
  dx_mid := 0
  dy_mid := 0
  dz_mid := 0
  str_family := ""
  str_genus := ""
  str_species := ""
  str_code := ""
  str_number := ""
  str_stage := ""
  str_activity := ""
  str_comment := ""
  str_att_9 := ""
  str_att_10 := ""

/-- Point structure (class TmPointData). -/
structure TmPointData where
  str_filename : String
  n_frame : Int
  d_time_mins : Float
  d_image_row : Float
  d_image_col : Float
  str_att_1 : String
  str_att_2 : String
  str_att_3 : String
  str_att_4 : String
  str_att_5 : String
  str_att_6 : String
  str_att_7 : String
  str_att_8 : String

/-- TmPointData() with the source defaults. -/
def TmPointData.init : TmPointData where
  str_filename := ""
  n_frame := 0
  d_time_mins := 0
  d_image_row := 0
  d_image_col := 0
  str_att_1 := ""
  str_att_2 := ""
  str_att_3 := ""
  str_att_4 := ""
  str_att_5 := ""
  str_att_6 := ""
  str_att_7 := ""
  str_att_8 := ""

/-!
ctypes argument-passing model for c_int out-parameters.
-/

/-- How a ctypes c_int object is handed to a native call: wrapped in
ctypes.byref (the native receives the address and can write through it) or
passed as the bare object (ctypes passes a c_int by value, so the native
receives the integer itself and any out-parameter write is lost to the
caller). -/
inductive CIntArg where
  | byValue (n : Int)
  | byRef (n : Int)
deriving DecidableEq, Repr

/-- The value held by the c_int object after the native call returns, where
`written` is the value the native function stores through the pointer it was
given.  Only a by-reference argument picks it up. -/
def CIntArg.afterCall (a : CIntArg) (written : Int) : Int :=
  match a with
  | .byValue n => n
  | .byRef _ => written

/-!
Call-boundary descriptors: the literal argument list each wrapper passes to
its single native call, transcribed from the call site in the source.
-/

/-- The record structure types declared by the binding. -/
inductive StructKind where
  | emPointData
  | em3DPpointData
  | emLengthData
  | tmPointData
  | tmQuadratData
  | stringData
deriving DecidableEq, Repr

/-- One argument crossing the ctypes call boundary. -/
inductive CArg where
  | intVal (n : Int)
  | cIntVal (n : Int)
  | bytesVal (s : String)
  | structVal (k : StructKind)
  | byrefStruct (k : StructKind)
  | byrefCInt (s : String)
  | strBufVal (sz : Int)
  | byrefStrBuf (sz : Int)
deriving DecidableEq, Repr

/-- A single native call: entry-point name and the arguments passed. -/
structure NativeCall where
  fname : String
  args : List CArg
deriving DecidableEq, Repr

/-- Native entry points that mutate a loaded data set, per the binding
surface and its docstrings: the load, clear, create, add, set and write
operations.  Count and get operations are queries. -/
def mutatesLoadedData (f : String) : Bool :=
  (["EMLoadData", "TMLoadData", "EMRemoveAll", "TMRemoveAll", "EMCreate",
    "EMAddPoint", "EMAdd3DPoint", "EMAddLength", "EMInfoSet",
    "EMWriteData"] : List String).contains f

/-!
Wrapper embeddings.  Each wrapper takes the native entry point it invokes as
an explicit function parameter.  A native function that receives a record by
reference is modelled as returning the pair of its integer result code and
the record as it stands after the call (the write through the reference).
-/

/-- def emtm_version: minor = c_int(0); major = c_int(0);
EMTMVersion(byref(major), byref(minor)); returns (major.value, minor.value). -/
def emtm_version (EMTMVersion : CIntArg → CIntArg → Int × Int) : Int × Int :=
  let minor := (0 : Int)
  let major := (0 : Int)
  let argMajor := CIntArg.byRef major
  let argMinor := CIntArg.byRef minor
  let call := EMTMVersion argMajor argMinor
  (argMajor.afterCall call.1, argMinor.afterCall call.2)

/-- def emtm_licence_present: r = EMTMLicencePresent();
return True if r == 1 else False. -/
def emtm_licence_present (EMTMLicencePresent : Unit → Int) : PyRet :=
  let r := EMTMLicencePresent ()
  if r = 1 then .pyBool true else .pyBool false

/-- def emtm_set_licence_keys: return EMTMSetLicenceKeys(bytes(key1, UTF-8),
bytes(key2, UTF-8)) — the raw native integer is returned unconverted. -/
def emtm_set_licence_keys (EMTMSetLicenceKeys : String → String → Int)
    (key1 : String) (key2 : String) : PyRet :=
  .rawInt (EMTMSetLicenceKeys key1 key2)

/-- def em_load_data: r = EMLoadData(em_file_id, bytes(filename, UTF-8));
return r — the raw native integer is returned, with no EMTMResult(r)
conversion. -/
def em_load_data (EMLoadData : Int → String → Int)
    (em_file_id : Int) (filename : String) : PyRet :=
  let r := EMLoadData em_file_id filename
  .rawInt r

/-- def tm_load_data: r = TMLoadData(tm_file_id, bytes(filename, UTF-8));
return EMTMResult(r) — the raw code is converted to the enumeration, and a
code outside the enumeration raises ValueError. -/
def tm_load_data (TMLoadData : Int → String → Int)
    (tm_file_id : Int) (filename : String) : Except String PyRet :=
  let r := TMLoadData tm_file_id filename
  match EMTMResult.ofInt? r with
  | some e => .ok (.enumVal e)
  | none => .error "ValueError"

/-- def em_info_count: return EMInfoCount() — the wrapper takes no handle id
parameter and passes no argument to the native call. -/
def em_info_count (EMInfoCount : Unit → Int) : Int :=
  EMInfoCount ()

/-- The call site of em_info_count, line 478: libc.EMInfoCount(). -/
def em_info_count_call : NativeCall :=
  ⟨"EMInfoCount", []⟩

/-- def em_info_get: allocates two string buffers of size n_buff_sz, calls
EMInfoGet(n_id, n_index, p_str_header, p_str_data, n_buff_sz), and returns
the two decoded strings; the native result code r is bound and discarded.
The native call is modelled as producing (code, header, data). -/
def em_info_get (EMInfoGet : Int → Int → Int → Int × String × String)
    (n_id : Int) (n_index : Int) (n_buff_sz : Int) : String × String :=
  let call := EMInfoGet n_id n_index n_buff_sz
  let r := call.1
  let _ := r
  (call.2.1, call.2.2)

/-- def em_units: allocates a buffer of size n_buff_sz and calls
EMUnits(em_file_id, byref(p_str_units)); the native return value is not even
bound, and the decoded buffer contents are returned.  The native call is
modelled as producing (code, units string written into the buffer). -/
def em_units (EMUnits : Int → Int × String)
    (em_file_id : Int) (n_buff_sz : Int) : String :=
  let _ := n_buff_sz
  let call := EMUnits em_file_id
  call.2

/-- def em_unique_fgs: return EMUniqueFGS(em_file_id). -/
def em_unique_fgs (EMUniqueFGS : Int → Int) (em_file_id : Int) : Int :=
  EMUniqueFGS em_file_id

/-- The FGS namedtuple returned by em_measurement_count_fgs:
FGS = namedtuple(FGS, point box xyz_point, length cpd_length). -/
structure FGSCounts where
  point : Int
  box : Int
  xyz_point : Int
  length : Int
  cpd_length : Int
deriving DecidableEq, Repr

/-- The five c_int out-parameters the native EMMeasurementCountFGS call
writes through, in declaration order of the wrapper locals. -/
structure MeasurementCountOut where
  n_point : Int
  n_box : Int
  n_3D_point : Int
  n_length : Int
  n_cpd_length : Int
deriving DecidableEq, Repr

/-- def em_measurement_count_fgs: five c_int(0) locals; one call
EMMeasurementCountFGS(em_file_id, bytes(family), bytes(genus),
bytes(species), byref(n_point), byref(n_box), byref(n_3D_point),
byref(n_length), byref(n_cpd_length)); returns
FGS(n_point.value, n_box.value, n_3D_point.value, n_length.value,
n_cpd_length.value). -/
def em_measurement_count_fgs
    (EMMeasurementCountFGS : Int → String → String → String →
      Int × MeasurementCountOut)
    (em_file_id : Int) (family : String) (genus : String) (species : String) :
    FGSCounts :=
  let call := EMMeasurementCountFGS em_file_id family genus species
  let out := call.2
  { point := out.n_point
    box := out.n_box
    xyz_point := out.n_3D_point
    length := out.n_length
    cpd_length := out.n_cpd_length }

/-- The call site of em_measurement_count_fgs, lines 683-691. -/
def em_measurement_count_fgs_call (em_file_id : Int)
    (family : String) (genus : String) (species : String) : NativeCall :=
  ⟨"EMMeasurementCountFGS",
    [.intVal em_file_id, .bytesVal family, .bytesVal genus,
     .bytesVal species, .byrefCInt "n_point", .byrefCInt "n_box",
     .byrefCInt "n_3D_point", .byrefCInt "n_length",
     .byrefCInt "n_cpd_length"]⟩

/-- def em_point_count: pn_bbox = c_int(0);
r = EMPointCount(em_file_id, byref(pn_bbox));
returns PointCount(total = r, bbox = pn_bbox.value).  The native call is
modelled as producing (return value, value written through the pointer). -/
def em_point_count (EMPointCount : Int → CIntArg → Int × Int)
    (em_file_id : Int) : Int × Int :=
  let pn_bbox := (0 : Int)
  let arg := CIntArg.byRef pn_bbox
  let call := EMPointCount em_file_id arg
  (call.1, arg.afterCall call.2)

/-- def em_get_length_count: pn_compound = c_int(0);
r = EMLengthCount(em_file_id, pn_compound) — note: pn_compound is passed
without ctypes.byref, so ctypes passes the c_int by value and the native
out-parameter write never reaches pn_compound;
returns LengthCount(total = r, compound = pn_compound.value). -/
def em_get_length_count (EMLengthCount : Int → CIntArg → Int × Int)
    (em_file_id : Int) : Int × Int :=
  let pn_compound := (0 : Int)
  let arg := CIntArg.byValue pn_compound
  let call := EMLengthCount em_file_id arg
  (call.1, arg.afterCall call.2)

/-- def em_3d_point_count: r = EM3DPointCount(em_file_id); return r. -/
def em_3d_point_count (EM3DPointCount : Int → Int) (em_file_id : Int) : Int :=
  EM3DPointCount em_file_id

/-- def em_get_point: p = EmPointData();
r = EMGetPoint(em_file_id, n_index, byref(p)); return p — the code r is
bound and discarded, the record as written by the native call is returned. -/
def em_get_point (EMGetPoint : Int → Int → EmPointData → Int × EmPointData)
    (em_file_id : Int) (n_index : Int) : EmPointData :=
  let p := EmPointData.init
  let call := EMGetPoint em_file_id n_index p
  let r := call.1
  let _ := r
  call.2

/-- The call site of em_get_point, line 749. -/
def em_get_point_call (em_file_id : Int) (n_index : Int) : NativeCall :=
  ⟨"EMGetPoint",
    [.intVal em_file_id, .intVal n_index, .byrefStruct .emPointData]⟩

/-- def em_get_3d_point: xyz_point = Em3DPpointData();
r = EMGet3DPoint(em_file_id, n_index, byref(xyz_point)); return xyz_point. -/
def em_get_3d_point
    (EMGet3DPoint : Int → Int → Em3DPpointData → Int × Em3DPpointData)
    (em_file_id : Int) (n_index : Int) : Em3DPpointData :=
  let xyz_point := Em3DPpointData.init
  let call := EMGet3DPoint em_file_id n_index xyz_point
  let r := call.1
  let _ := r
  call.2

/-- The call site of em_get_3d_point, line 800. -/
def em_get_3d_point_call (em_file_id : Int) (n_index : Int) : NativeCall :=
  ⟨"EMGet3DPoint",
    [.intVal em_file_id, .intVal n_index, .byrefStruct .em3DPpointData]⟩

/-- def em_get_length: length_data = EmLengthData();
r = EMGetLength(em_file_id, n_index, byref(length_data));
return length_data. -/
def em_get_length
    (EMGetLength : Int → Int → EmLengthData → Int × EmLengthData)
    (em_file_id : Int) (n_index : Int) : EmLengthData :=
  let length_data := EmLengthData.init
  let call := EMGetLength em_file_id n_index length_data
  let r := call.1
  let _ := r
  call.2

/-- The call site of em_get_length, line 859. -/
def em_get_length_call (em_file_id : Int) (n_index : Int) : NativeCall :=
  ⟨"EMGetLength",
    [.intVal em_file_id, .intVal n_index, .byrefStruct .emLengthData]⟩

/-- def tm_point_count: return TMPointCount(tm_file_id). -/
def tm_point_count (TMPointCount : Int → Int) (tm_file_id : Int) : Int :=
  TMPointCount tm_file_id

/-- def tm_get_point: p = TmPointData();
r = TMGetPoint(tm_file_id, n_index, byref(p)); return p. -/
def tm_get_point (TMGetPoint : Int → Int → TmPointData → Int × TmPointData)
    (tm_file_id : Int) (n_index : Int) : TmPointData :=
  let p := TmPointData.init
  let call := TMGetPoint tm_file_id n_index p
  let r := call.1
  let _ := r
  call.2

/-- The call site of tm_get_point, line 944. -/
def tm_get_point_call (tm_file_id : Int) (n_index : Int) : NativeCall :=
  ⟨"TMGetPoint",
    [.intVal tm_file_id, .intVal n_index, .byrefStruct .tmPointData]⟩

/-- def tm_get_frame_info: n_frame = c_int(n_frame);
string_data = StringData();
r = TMGetFrameInfo(tm_file_id, n_frame, byref(string_data));
return string_data — the code r is discarded. -/
def tm_get_frame_info
    (TMGetFrameInfo : Int → Int → StringData → Int × StringData)
    (tm_file_id : Int) (n_frame : Int) : StringData :=
  let string_data := StringData.init
  let call := TMGetFrameInfo tm_file_id n_frame string_data
  let r := call.1
  let _ := r
  call.2

/-- def tm_quadrat_count: quad_count = TMQuadratCount(tm_file_id);
return quad_count. -/
def tm_quadrat_count (TMQuadratCount : Int → Int) (tm_file_id : Int) : Int :=
  TMQuadratCount tm_file_id

/-- def tm_get_quadrat: n_index = c_int(n_index);
tm_quadrat_data = TMQuadratData();
TMGetQuadrat(tm_file_id, tm_quadrat_data, n_index, byref(tm_quadrat_data))
— the record is passed twice, once by value as the second argument and once
by reference as the fourth; the native return value is not bound;
return tm_quadrat_data. -/
def tm_get_quadrat
    (TMGetQuadrat : Int → TMQuadratData → Int → TMQuadratData →
      Int × TMQuadratData)
    (tm_file_id : Int) (n_index : Int) : TMQuadratData :=
  let tm_quadrat_data := TMQuadratData.init
  let call := TMGetQuadrat tm_file_id tm_quadrat_data n_index tm_quadrat_data
  call.2

/-- The call site of tm_get_quadrat, line 1032: libc.TMGetQuadrat(tm_file_id,
tm_quadrat_data, n_index, ctypes.byref(tm_quadrat_data)). -/
def tm_get_quadrat_call (tm_file_id : Int) (n_index : Int) : NativeCall :=
  ⟨"TMGetQuadrat",
    [.intVal tm_file_id, .structVal .tmQuadratData, .cIntVal n_index,
     .byrefStruct .tmQuadratData]⟩

/-- The argument shape the indexed-get protocol prescribes: exactly the
handle id, the zero-based index (bare or wrapped in c_int) and one reference
to a record structure, in that order, and nothing else. -/
def conformsToGetProtocol (c : NativeCall) (handle : Int) (idx : Int)
    (k : StructKind) : Prop :=
  c.args = [.intVal handle, .intVal idx, .byrefStruct k] ∨
  c.args = [.intVal handle, .cIntVal idx, .byrefStruct k]

instance (c : NativeCall) (handle : Int) (idx : Int) (k : StructKind) :
    Decidable (conformsToGetProtocol c handle idx k) := by
  unfold conformsToGetProtocol
  infer_instance

/-!
Data-frame helper (def _dataframe_from_count_and_record_reader).  The record
type is abstract; dirf models Python dir() on a record instance and getattr
models attribute access.  The result pairs the Python return value (None for
count 0, ValueError for negative count, otherwise the DataFrame) with the
list of indices passed to record_read_function, in call order.
-/

/-- A Pandas DataFrame, reduced to what the helper constructs: the column
names and the rows of cell values. -/
structure PyDataFrame (α : Type) where
  columns : List String
  data : List (List α)

/-- Python str.startswith, on the character sequence of the string. -/
def startswith (s pre : String) : Bool :=
  pre.data.isPrefixOf s.data

/-- def _dataframe_from_count_and_record_reader: returns None when count is
0; raises ValueError when count is negative; otherwise reads record 0 once
to compute index = the dir() attributes that start with neither a double nor
a single underscore, then reads records 0..count-1 filling one row each, and
wraps the cells in a DataFrame with columns = index. -/
def dataframe_from_count_and_record_reader {Rec : Type} {α : Type}
    (dirf : Rec → List String) (getattr : Rec → String → α)
    (count : Int) (record_read_function : Int → Rec) :
    Except String (Option (PyDataFrame α)) × List Int :=
  if count = 0 then
    (.ok none, [])
  else if count < 0 then
    (.error ("Count must be greater than zero. Got " ++ toString count ++ "."),
     [])
  else
    let p := record_read_function 0
    let index := (dirf p).filter
      (fun attr => !(startswith attr "__") && !(startswith attr "_"))
    let rows := (List.range count.toNat).map (fun jj =>
      let q := record_read_function (Int.ofNat jj)
      index.map (fun ind => getattr q ind))
    (.ok (some ⟨index, rows⟩),
     0 :: (List.range count.toNat).map Int.ofNat)

end Emtm

/-!
Spec-modelled native state machine, for the write/load round-trip.  The
native implementations of EMWriteData and EMLoadData are not under src/
(only their ctypes declarations and the em_write_data and em_load_data
callers are), so they are modelled from the spec here.
-/

namespace Emtm.SpecModel

/-- One EventMeasure data set as held by the native library: the record
lists of each measurement kind. -/
structure EmDataSet where
  points : List Emtm.EmPointData
  points3d : List Emtm.Em3DPpointData
  lengths : List Emtm.EmLengthData

/-- The process-wide native library state: the EM data sets addressed by
integer handle ids, the files on disk (the file contents are opaque blobs
produced and parsed only by the native library, modelled by the data set
they serialize), and the licence-activation flag. -/
structure NativeState where
  emData : Int → Option EmDataSet
  files : String → Option EmDataSet
  licensed : Bool

/-- Modelled from the spec: the native EMWriteData, whose implementation is
not under src/.  Spec 4.2: write(handle_id, path) serializes the current
in-memory data set at handle_id to disk, overwriting any existing file;
fails with invalid_licence or failed. -/
def EMWriteData (s : NativeState) (em_file_id : Int) (filename : String) :
    Emtm.EMTMResult × NativeState :=
  if s.licensed = false then (.invalid_licence, s)
  else
    match s.emData em_file_id with
    | none => (.failed, s)
    | some ds =>
      (.ok, { s with files := fun p => if p = filename then some ds
                                       else s.files p })

/-- Modelled from the spec: the native EMLoadData, whose implementation is
not under src/.  Spec 4.2: load(handle_id, path) replaces any data
previously held at handle_id with the parsed contents of the file; fails
with failed if the file cannot be read, invalid_licence if unlicensed. -/
def EMLoadData (s : NativeState) (em_file_id : Int) (filename : String) :
    Emtm.EMTMResult × NativeState :=
  if s.licensed = false then (.invalid_licence, s)
  else
    match s.files filename with
    | none => (.failed, s)
    | some ds =>
      (.ok, { s with emData := fun i => if i = em_file_id then some ds
                                        else s.emData i })

/-- The binding wrapper em_write_data applied to the spec-modelled native:
return EMWriteData(em_file_id, bytes(filename, UTF-8)). -/
def em_write_data (s : NativeState) (em_file_id : Int) (filename : String) :
    Emtm.EMTMResult × NativeState :=
  EMWriteData s em_file_id filename

/-- The binding wrapper em_load_data applied to the spec-modelled native:
r = EMLoadData(em_file_id, bytes(filename, UTF-8)); return r. -/
def em_load_data (s : NativeState) (em_file_id : Int) (filename : String) :
    Emtm.EMTMResult × NativeState :=
  EMLoadData s em_file_id filename

/-- The per-kind record counts of the data set at a handle id, as the count
wrappers em_point_count, em_3d_point_count and em_get_length_count report
their totals: 0 of each kind when nothing is loaded. -/
def countsAt (s : NativeState) (em_file_id : Int) : Nat × Nat × Nat :=
  match s.emData em_file_id with
  | none => (0, 0, 0)
  | some ds => (ds.points.length, ds.points3d.length, ds.lengths.length)

end Emtm.SpecModel

namespace Emtm

/-!
Concrete native behaviours and states used to evaluate the wrappers on
specific inputs.
-/

/-- A native EMGetPoint run that writes nothing into the record and reports
ok. -/
def nativeGetPointOk : Int → Int → EmPointData → Int × EmPointData :=
  fun _ _ p => (EMTMResult.toInt .ok, p)

/-- A native EMGetPoint run that writes nothing into the record and reports
buffer_too_small. -/
def nativeGetPointBufSmall : Int → Int → EmPointData → Int × EmPointData :=
  fun _ _ p => (EMTMResult.toInt .buffer_too_small, p)

/-- A native EMLengthCount run on the Test.EMObs fixture: 22 length
measurements in total, 1 of them compound, written through the out-parameter
pointer (the FGS wildcard query on the same fixture reports cpd_length 1). -/
def nativeLengthCountFixture : Int → CIntArg → Int × Int :=
  fun _ _ => (22, 1)

/-- A native load call that reports invalid_licence (raw code 2). -/
def nativeLoadInvalidLicence : Int → String → Int :=
  fun _ _ => 2

/-- A one-record-per-kind data set, as built by test_em_write_data. -/
def SpecModel.sampleDataSet : SpecModel.EmDataSet :=
  ⟨[EmPointData.init], [Em3DPpointData.init], [EmLengthData.init]⟩

/-- A licensed native state holding sampleDataSet at handle id 0 and an
empty disk. -/
def SpecModel.sampleState : SpecModel.NativeState :=
  ⟨fun i => if i = 0 then some SpecModel.sampleDataSet else none,
   fun _ => none, true⟩

/-- A record-reader playground for the data-frame helper: dir() of the
record lists one dunder attribute, one underscore attribute and two public
fields. -/
def sampleDirf : Nat → List String :=
  fun _ => ["__class__", "_fields_", "n_frame", "str_filename"]

/-- Attribute access for the playground record. -/
def sampleGetattr : Nat → String → String :=
  fun r a => toString r ++ a

/-- The playground record reader: the record is the index itself. -/
def sampleReader : Int → Nat :=
  fun i => i.toNat

end Emtm

/-!
Theorems.  Each claim of the specification is settled below against the
embeddings above.
-/

open Emtm

/-- Claim C1, counterexample: the result code of the native call is not
surfaced by em_get_point.  Two native runs that write the same (empty)
record but return different codes — ok versus buffer_too_small — produce
identical wrapper outputs at handle id 0, index 0, so the caller cannot
observe buffer_too_small alongside the record it receives. -/
theorem claim_C1_counterexample :
    em_get_point nativeGetPointOk 0 0 = em_get_point nativeGetPointBufSmall 0 0 ∧
    (nativeGetPointOk 0 0 EmPointData.init).1 ≠
      (nativeGetPointBufSmall 0 0 EmPointData.init).1 := by
  refine ⟨rfl, ?_⟩
  decide

/-- Claim C1, amended: the indexed get wrappers (em_get_point,
em_get_3d_point, em_get_length, tm_get_point, tm_get_quadrat,
tm_get_frame_info) and em_info_get and em_units discard the native result
code: each returns exactly the record or strings the native call produced,
and its output is unchanged under any change of the native result code, so
buffer_too_small is not observable through these wrappers.  (The load, set,
add and write wrappers do return their native codes.) -/
theorem claim_C1_amended :
    (∀ (f : Int → Int → EmPointData → Int × EmPointData) (id n : Int),
      em_get_point f id n = (f id n EmPointData.init).2) ∧
    (∀ (f : Int → Int → Em3DPpointData → Int × Em3DPpointData) (id n : Int),
      em_get_3d_point f id n = (f id n Em3DPpointData.init).2) ∧
    (∀ (f : Int → Int → EmLengthData → Int × EmLengthData) (id n : Int),
      em_get_length f id n = (f id n EmLengthData.init).2) ∧
    (∀ (f : Int → Int → TmPointData → Int × TmPointData) (id n : Int),
      tm_get_point f id n = (f id n TmPointData.init).2) ∧
    (∀ (f : Int → TMQuadratData → Int → TMQuadratData → Int × TMQuadratData)
      (id n : Int),
      tm_get_quadrat f id n =
        (f id TMQuadratData.init n TMQuadratData.init).2) ∧
    (∀ (f : Int → Int → StringData → Int × StringData) (id n : Int),
      tm_get_frame_info f id n = (f id n StringData.init).2) ∧
    (∀ (f : Int → Int → Int → Int × String × String) (id n sz : Int),
      em_info_get f id n sz = ((f id n sz).2.1, (f id n sz).2.2)) ∧
    (∀ (f : Int → Int × String) (id sz : Int),
      em_units f id sz = (f id).2) ∧
    (∀ (f g : Int → Int → EmPointData → Int × EmPointData) (id n : Int),
      (∀ a b p, (f a b p).2 = (g a b p).2) →
      em_get_point f id n = em_get_point g id n) ∧
    (∀ (f g : Int → Int → Int → Int × String × String) (id n sz : Int),
      (∀ a b c, (f a b c).2 = (g a b c).2) →
      em_info_get f id n sz = em_info_get g id n sz) := by
  refine ⟨fun f id n => rfl, fun f id n => rfl, fun f id n => rfl,
    fun f id n => rfl, fun f id n => rfl, fun f id n => rfl,
    fun f id n sz => rfl, fun f id sz => rfl, ?_, ?_⟩
  · intro f g id n h
    exact h id n EmPointData.init
  · intro f g id n sz h
    show ((f id n sz).2.1, (f id n sz).2.2) = ((g id n sz).2.1, (g id n sz).2.2)
    rw [h id n sz]

/-- Claim C1, witness: the code-independence conjuncts of claim_C1_amended
applied to concrete native behaviours whose result codes differ. -/
theorem claim_C1_witness :
    em_get_point nativeGetPointOk 3 1 = em_get_point nativeGetPointBufSmall 3 1 ∧
    em_info_get (fun _ _ _ => (0, "OpCode", "Test")) 0 0 1024 =
      em_info_get (fun _ _ _ => (4, "OpCode", "Test")) 0 0 1024 :=
  ⟨claim_C1_amended.2.2.2.2.2.2.2.2.1 nativeGetPointOk nativeGetPointBufSmall
      3 1 (fun _ _ _ => rfl),
   claim_C1_amended.2.2.2.2.2.2.2.2.2 (fun _ _ _ => (0, "OpCode", "Test"))
      (fun _ _ _ => (4, "OpCode", "Test")) 0 0 1024 (fun _ _ _ => rfl)⟩

/-- Claim C2, code bug: em_get_length_count passes pn_compound to the native
EMLengthCount without ctypes.byref, so ctypes hands the c_int over by value,
the native out-parameter write is lost, and the compound component of the
returned pair is always the initial 0 — unlike em_point_count, whose bbox
component does equal the value written through its by-reference
out-parameter.  On the Test.EMObs fixture behaviour (22 lengths, 1 compound)
the wrapper returns (22, 0). -/
theorem claim_C2_code_eval :
    em_get_length_count nativeLengthCountFixture 0 = (22, 0) ∧
    (∀ (f : Int → CIntArg → Int × Int) (id : Int),
      (em_get_length_count f id).2 = 0) ∧
    (∀ (f : Int → CIntArg → Int × Int) (id : Int),
      em_point_count f id = ((f id (.byRef 0)).1, (f id (.byRef 0)).2)) := by
  exact ⟨rfl, fun f id => rfl, fun f id => rfl⟩

/-- Claim C3, counterexample: em_load_data does not map the raw native code
into the EMTMResult enumeration.  With a native load reporting code 2
(invalid_licence), em_load_data returns the raw integer 2, not an
enumeration member, while tm_load_data on the same native behaviour returns
EMTMResult.invalid_licence. -/
theorem claim_C3_counterexample :
    PyRet.isEnumVal (em_load_data nativeLoadInvalidLicence 0 "Test.EMObs") = false ∧
    em_load_data nativeLoadInvalidLicence 0 "Test.EMObs" = .rawInt 2 ∧
    tm_load_data nativeLoadInvalidLicence 0 "Test.TMObs" =
      .ok (.enumVal .invalid_licence) := by
  exact ⟨rfl, rfl, rfl⟩

/-- Conversion round trip of the result enumeration: EMTMResult(r) applied
to a member's own integer code yields that member. -/
theorem EMTMResult_ofInt_toInt (e : EMTMResult) :
    EMTMResult.ofInt? e.toInt = some e := by
  cases e <;> rfl

/-- Claim C3, amended: when the native load call returns a code of the
six-value enumeration, tm_load_data maps it into the enumerated type before
returning it, while em_load_data returns the raw integer code unmapped
(numerically equal to the member, but not a member of the enumeration). -/
theorem claim_C3_amended :
    ∀ (f : Int → String → Int) (id : Int) (fn : String) (e : EMTMResult),
      f id fn = e.toInt →
      em_load_data f id fn = .rawInt e.toInt ∧
      tm_load_data f id fn = .ok (.enumVal e) := by
  intro f id fn e h
  refine ⟨?_, ?_⟩
  · simp only [em_load_data, h]
  · simp only [tm_load_data, h, EMTMResult_ofInt_toInt]

/-- Claim C3, witness: claim_C3_amended applied to a native load returning
code 1 (failed). -/
theorem claim_C3_witness :
    em_load_data (fun _ _ => 1) 0 "Test.EMObs" = .rawInt 1 ∧
    tm_load_data (fun _ _ => 1) 0 "Test.EMObs" = .ok (.enumVal .failed) :=
  claim_C3_amended (fun _ _ => 1) 0 "Test.EMObs" .failed rfl

/-- Claim C4, code bug: four of the five indexed get wrappers pass exactly
the handle id, the zero-based index and one reference to a freshly
constructed record, but tm_get_quadrat additionally passes the record
structure itself by value as the second argument, before the index — four
arguments in total, so the claimed three-argument shape fails there. -/
theorem claim_C4_code_eval :
    (∀ id n : Int, conformsToGetProtocol (em_get_point_call id n) id n .emPointData) ∧
    (∀ id n : Int, conformsToGetProtocol (em_get_3d_point_call id n) id n .em3DPpointData) ∧
    (∀ id n : Int, conformsToGetProtocol (em_get_length_call id n) id n .emLengthData) ∧
    (∀ id n : Int, conformsToGetProtocol (tm_get_point_call id n) id n .tmPointData) ∧
    ¬ conformsToGetProtocol (tm_get_quadrat_call 0 0) 0 0 .tmQuadratData ∧
    CArg.structVal .tmQuadratData ∈ (tm_get_quadrat_call 0 0).args ∧
    (tm_get_quadrat_call 0 0).args.length = 4 := by
  refine ⟨fun id n => Or.inl rfl, fun id n => Or.inl rfl,
    fun id n => Or.inl rfl, fun id n => Or.inl rfl, ?_, ?_, rfl⟩
  · decide
  · decide

/-- Claim C5, code bug: the em_info_count wrapper takes no handle-id
parameter at all and invokes the native EMInfoCount with an empty argument
list, so no handle id is passed to the native count function. -/
theorem claim_C5_code_eval :
    em_info_count_call.args = [] ∧
    (∀ n : Int, CArg.intVal n ∉ em_info_count_call.args) ∧
    (∀ f : Unit → Int, em_info_count f = f ()) := by
  refine ⟨rfl, ?_, fun f => rfl⟩
  intro n h
  exact List.not_mem_nil _ h

/-- Claim C6, confirmed: em_measurement_count_fgs returns the five-component
FGS tuple in the order (point, box, xyz_point, length, cpd_length), each
component equal to the corresponding of the five native out-parameters
(n_point, n_box, n_3D_point, n_length, n_cpd_length) of its single
EMMeasurementCountFGS call, whose argument list carries the handle id, the
three encoded taxonomy strings and the five by-reference out-parameters in
that order; that native entry point is not one of the mutating operations of
the binding surface. -/
theorem claim_C6_theorem :
    ∀ (f : Int → String → String → String → Int × MeasurementCountOut)
      (id : Int) (family genus species : String),
      (em_measurement_count_fgs f id family genus species).point =
        (f id family genus species).2.n_point ∧
      (em_measurement_count_fgs f id family genus species).box =
        (f id family genus species).2.n_box ∧
      (em_measurement_count_fgs f id family genus species).xyz_point =
        (f id family genus species).2.n_3D_point ∧
      (em_measurement_count_fgs f id family genus species).length =
        (f id family genus species).2.n_length ∧
      (em_measurement_count_fgs f id family genus species).cpd_length =
        (f id family genus species).2.n_cpd_length ∧
      (em_measurement_count_fgs_call id family genus species).fname =
        "EMMeasurementCountFGS" ∧
      (em_measurement_count_fgs_call id family genus species).args =
        [.intVal id, .bytesVal family, .bytesVal genus, .bytesVal species,
         .byrefCInt "n_point", .byrefCInt "n_box", .byrefCInt "n_3D_point",
         .byrefCInt "n_length", .byrefCInt "n_cpd_length"] ∧
      mutatesLoadedData
        (em_measurement_count_fgs_call id family genus species).fname = false := by
  intro f id family genus species
  exact ⟨rfl, rfl, rfl, rfl, rfl, rfl, rfl, rfl⟩

/-- Claim C7, counterexample: emtm_set_licence_keys does not return a
boolean.  With a native key verification reporting success (code 1), the
wrapper returns the raw integer 1, which is not the Python bool True. -/
theorem claim_C7_counterexample :
    PyRet.isPyBool (emtm_set_licence_keys (fun _ _ => 1) "key1" "key2") = false ∧
    emtm_set_licence_keys (fun _ _ => 1) "key1" "key2" = .rawInt 1 ∧
    emtm_set_licence_keys (fun _ _ => 1) "key1" "key2" ≠ .pyBool true := by
  exact ⟨rfl, rfl, by decide⟩

/-- Claim C7, amended: emtm_licence_present converts and returns the bool
True exactly when the native licence check reports 1, False otherwise;
emtm_set_licence_keys returns the raw native integer verbatim (truthy
exactly when the keys were verified) rather than a bool. -/
theorem claim_C7_amended :
    ∀ (f : Unit → Int) (g : String → String → Int) (key1 key2 : String),
      (f () = 1 → emtm_licence_present f = .pyBool true) ∧
      (f () ≠ 1 → emtm_licence_present f = .pyBool false) ∧
      emtm_set_licence_keys g key1 key2 = .rawInt (g key1 key2) := by
  intro f g key1 key2
  refine ⟨?_, ?_, rfl⟩
  · intro h
    simp only [emtm_licence_present, h, if_pos]
  · intro h
    simp only [emtm_licence_present, h, if_neg, if_false]

/-- Claim C7, witness: claim_C7_amended applied to a native reporting a
licence present (1), one reporting none (0), and a key verification
reporting success (1). -/
theorem claim_C7_witness :
    emtm_licence_present (fun _ => 1) = .pyBool true ∧
    emtm_licence_present (fun _ => 0) = .pyBool false ∧
    emtm_set_licence_keys (fun _ _ => 1) "k1" "k2" = .rawInt 1 :=
  ⟨(claim_C7_amended (fun _ => 1) (fun _ _ => 1) "k1" "k2").1 rfl,
   (claim_C7_amended (fun _ => 0) (fun _ _ => 1) "k1" "k2").2.1 (by decide),
   (claim_C7_amended (fun _ => 1) (fun _ _ => 1) "k1" "k2").2.2⟩

/-- Claim C8, confirmed against the spec-modelled native EMWriteData and
EMLoadData: in a licensed state holding a data set at one handle id, writing
it to a path and then loading that path into another handle id succeeds and
reproduces identical counts for every record kind (points, 3D points,
lengths). -/
theorem claim_C8_theorem :
    ∀ (s : SpecModel.NativeState) (id id2 : Int) (path : String)
      (ds : SpecModel.EmDataSet),
      s.licensed = true → s.emData id = some ds →
      (SpecModel.em_write_data s id path).1 = .ok ∧
      (SpecModel.em_load_data
        ((SpecModel.em_write_data s id path).2) id2 path).1 = .ok ∧
      SpecModel.countsAt
        ((SpecModel.em_load_data
          ((SpecModel.em_write_data s id path).2) id2 path).2) id2 =
        SpecModel.countsAt s id := by
  intro s id id2 path ds hlic hdata
  simp only [SpecModel.em_write_data, SpecModel.EMWriteData,
    SpecModel.em_load_data, SpecModel.EMLoadData, SpecModel.countsAt,
    hlic, hdata]
  simp

/-- Claim C8, witness: claim_C8_theorem applied to the licensed sample state
holding the one-record-per-kind data set at handle id 0, writing it to
tmp.EMObs and loading that file into handle id 1. -/
theorem claim_C8_witness :
    (SpecModel.em_write_data SpecModel.sampleState 0 "tmp.EMObs").1 = .ok ∧
    (SpecModel.em_load_data
      ((SpecModel.em_write_data SpecModel.sampleState 0 "tmp.EMObs").2)
      1 "tmp.EMObs").1 = .ok ∧
    SpecModel.countsAt
      ((SpecModel.em_load_data
        ((SpecModel.em_write_data SpecModel.sampleState 0 "tmp.EMObs").2)
        1 "tmp.EMObs").2) 1 =
      SpecModel.countsAt SpecModel.sampleState 0 :=
  claim_C8_theorem SpecModel.sampleState 0 1 "tmp.EMObs"
    SpecModel.sampleDataSet rfl (by simp [SpecModel.sampleState])

/-- Claim C9, confirmed: the data-frame helper returns None when count is 0
without reading any record; raises ValueError when count is negative without
reading any record; and for positive count reads index 0 once to discover
the field names and then every index 0..count-1, returning a table with
exactly count rows and one column per public (non-underscore) record
attribute. -/
theorem claim_C9_theorem :
    ∀ {Rec α : Type} (dirf : Rec → List String) (getattr : Rec → String → α)
      (count : Int) (reader : Int → Rec),
      (count = 0 →
        dataframe_from_count_and_record_reader dirf getattr count reader =
          (.ok none, [])) ∧
      (count < 0 →
        dataframe_from_count_and_record_reader dirf getattr count reader =
          (.error ("Count must be greater than zero. Got " ++
            toString count ++ "."), [])) ∧
      (0 < count →
        (dataframe_from_count_and_record_reader dirf getattr count reader).2 =
          0 :: (List.range count.toNat).map Int.ofNat ∧
        ∃ df,
          (dataframe_from_count_and_record_reader dirf getattr count reader).1 =
            .ok (some df) ∧
          df.data.length = count.toNat ∧
          df.columns = (dirf (reader 0)).filter
            (fun attr => !(startswith attr "__") && !(startswith attr "_"))) := by
  intro Rec α dirf getattr count reader
  refine ⟨?_, ?_, ?_⟩
  · intro h
    unfold dataframe_from_count_and_record_reader
    rw [if_pos h]
  · intro h
    have h0 : ¬ count = 0 := by omega
    unfold dataframe_from_count_and_record_reader
    rw [if_neg h0, if_pos h]
  · intro h
    have h0 : ¬ count = 0 := by omega
    have h1 : ¬ count < 0 := by omega
    unfold dataframe_from_count_and_record_reader
    rw [if_neg h0, if_neg h1]
    refine ⟨rfl, ⟨_, rfl, ?_, rfl⟩⟩
    simp

/-- Claim C9, witness: claim_C9_theorem applied to the playground reader at
counts 0, -1 and 2: the zero count yields None and no reads, the negative
count yields the ValueError message, and count 2 reads indices 0, 0, 1 and
yields two rows over the two public columns. -/
theorem claim_C9_witness :
    dataframe_from_count_and_record_reader sampleDirf sampleGetattr 0
      sampleReader = (.ok none, []) ∧
    dataframe_from_count_and_record_reader sampleDirf sampleGetattr (-1)
      sampleReader =
      (.error "Count must be greater than zero. Got -1.", []) ∧
    ((dataframe_from_count_and_record_reader sampleDirf sampleGetattr 2
        sampleReader).2 = [0, 0, 1] ∧
      ∃ df,
        (dataframe_from_count_and_record_reader sampleDirf sampleGetattr 2
          sampleReader).1 = .ok (some df) ∧
        df.data.length = 2 ∧
        df.columns = ["n_frame", "str_filename"]) :=
  by
  refine ⟨(claim_C9_theorem sampleDirf sampleGetattr 0 sampleReader).1 rfl,
    ?_, ?_, ?_⟩
  · have h := (claim_C9_theorem sampleDirf sampleGetattr (-1) sampleReader).2.1
      (by decide)
    rw [h]
    have hs : ("Count must be greater than zero. Got " ++
        toString (-1 : Int) ++ ".") =
        "Count must be greater than zero. Got -1." := by decide
    rw [hs]
  · have h := ((claim_C9_theorem sampleDirf sampleGetattr 2 sampleReader).2.2
      (by decide)).1
    rw [h]
    decide
  · obtain ⟨df, h1, h2, h3⟩ :=
      ((claim_C9_theorem sampleDirf sampleGetattr 2 sampleReader).2.2
        (by decide)).2
    refine ⟨df, h1, ?_, ?_⟩
    · rw [h2]
      decide
    · rw [h3]
      decide

/-- Claim C10, confirmed: each record constructor called with no arguments
initializes every numeric field to 0 (the c_bool compound flag to False) and
every text field to the empty string, shown by the explicit all-zero
positional literals below; and each indexed get wrapper passes exactly such
a freshly constructed record to its native call, so any field projection the
native write leaves unchanged comes back to the caller with its initial
zero or empty value. -/
theorem claim_C10_theorem :
    EmPointData.init =
      ⟨"", "", 0, 0, "", 0, 0, 0, 0, 0,
       "", "", "", "", "", "", "", "", "", ""⟩ ∧
    Em3DPpointData.init =
      ⟨"", "", "", 0, 0, 0, "", 0, 0, 0, 0, 0, 0, 0, 0, 0, 0, 0, 0, 0, 0,
       "", "", "", "", "", "", "", "", "", ""⟩ ∧
    EmLengthData.init =
      ⟨"", "", "", 0, 0, 0, "", 0, false, 0, 0, 0, 0, 0, 0, 0, 0,
       0, 0, 0, 0, 0, 0, 0, 0,
       "", "", "", "", "", "", "", "", "", ""⟩ ∧
    TmPointData.init =
      ⟨"", 0, 0, 0, 0, "", "", "", "", "", "", "", ""⟩ ∧
    TMQuadratData.init =
      ⟨"", 0, 0, 0, "", 0, 0, 0, 0, 0, 0, 0, 0⟩ ∧
    StringData.init = ⟨"", "", "", "", "", ""⟩ ∧
    (∀ (α : Type) (π : EmPointData → α)
      (f : Int → Int → EmPointData → Int × EmPointData) (id n : Int),
      (∀ q, π (f id n q).2 = π q) →
      π (em_get_point f id n) = π EmPointData.init) ∧
    (∀ (α : Type) (π : Em3DPpointData → α)
      (f : Int → Int → Em3DPpointData → Int × Em3DPpointData) (id n : Int),
      (∀ q, π (f id n q).2 = π q) →
      π (em_get_3d_point f id n) = π Em3DPpointData.init) ∧
    (∀ (α : Type) (π : EmLengthData → α)
      (f : Int → Int → EmLengthData → Int × EmLengthData) (id n : Int),
      (∀ q, π (f id n q).2 = π q) →
      π (em_get_length f id n) = π EmLengthData.init) ∧
    (∀ (α : Type) (π : TmPointData → α)
      (f : Int → Int → TmPointData → Int × TmPointData) (id n : Int),
      (∀ q, π (f id n q).2 = π q) →
      π (tm_get_point f id n) = π TmPointData.init) ∧
    (∀ (α : Type) (π : TMQuadratData → α)
      (f : Int → TMQuadratData → Int → TMQuadratData → Int × TMQuadratData)
      (id n : Int),
      (∀ q, π (f id TMQuadratData.init n q).2 = π q) →
      π (tm_get_quadrat f id n) = π TMQuadratData.init) ∧
    (∀ (α : Type) (π : StringData → α)
      (f : Int → Int → StringData → Int × StringData) (id n : Int),
      (∀ q, π (f id n q).2 = π q) →
      π (tm_get_frame_info f id n) = π StringData.init) := by
  refine ⟨rfl, rfl, rfl, rfl, rfl, rfl, ?_, ?_, ?_, ?_, ?_, ?_⟩ <;>
    intro α π f id n h <;> exact h _

/-- Claim C10, witness: the preservation conjuncts of claim_C10_theorem
applied to native runs that write nothing into the record they are handed:
the fields come back as the constructor defaults, 0 or empty. -/
theorem claim_C10_witness :
    (em_get_point (fun _ _ p => (0, p)) 0 0).str_family = "" ∧
    (em_get_3d_point (fun _ _ p => (0, p)) 0 0).str_genus = "" ∧
    (em_get_length (fun _ _ p => (0, p)) 0 0).b_compound_length = false ∧
    (tm_get_point (fun _ _ p => (0, p)) 0 0).str_att_1 = "" ∧
    (tm_get_quadrat (fun _ _ _ q2 => (0, q2)) 0 0).str_units = "" ∧
    (tm_get_frame_info (fun _ _ p => (0, p)) 0 0).str1 = "" := by
  refine ⟨?_, ?_, ?_, ?_, ?_, ?_⟩
  · exact claim_C10_theorem.2.2.2.2.2.2.1 String EmPointData.str_family
      (fun _ _ p => (0, p)) 0 0 (fun _ => rfl)
  · exact claim_C10_theorem.2.2.2.2.2.2.2.1 String Em3DPpointData.str_genus
      (fun _ _ p => (0, p)) 0 0 (fun _ => rfl)
  · exact claim_C10_theorem.2.2.2.2.2.2.2.2.1 Bool
      EmLengthData.b_compound_length (fun _ _ p => (0, p)) 0 0 (fun _ => rfl)
  · exact claim_C10_theorem.2.2.2.2.2.2.2.2.2.1 String TmPointData.str_att_1
      (fun _ _ p => (0, p)) 0 0 (fun _ => rfl)
  · exact claim_C10_theorem.2.2.2.2.2.2.2.2.2.2.1 String
      TMQuadratData.str_units (fun _ _ _ q2 => (0, q2)) 0 0 (fun _ => rfl)
  · exact claim_C10_theorem.2.2.2.2.2.2.2.2.2.2.2 String StringData.str1
      (fun _ _ p => (0, p)) 0 0 (fun _ => rfl)
